import Mathlib

/-!
# LSCSD-Denver: the Supabase data-access adapter (`src/services/supabase.js`)

A shallow embedding of the adapter's four operations (`loadData`, `saveData`,
`subscribeToChanges`, `initDatabase`) and of its configuration resolution.

* JavaScript values that travel through the adapter are JSON values (`Json`);
  a missing property (`undefined`) is `none : Option Json`.
* The Supabase client is external.  Every query the adapter issues is a `Call`;
  a `Backend σ` answers a call in a backend state `σ` with an `Outcome`
  (the awaited promise resolves to a `data`/`error` response, or rejects).
* The adapter's asynchronous functions are programs `Prog σ α` run against a
  backend; a run records the calls it issued, in order.
* `new Date().toISOString()` is the parameter `now`.
* `console.log` / `console.error` have no effect on results and are left out.
-/

namespace Supabase

/-! ## JavaScript values -/

/-- JSON values: what `saveData` accepts and what a response's `data` holds.
Numbers are the finite numbers, as rationals. -/
inductive Json where
  | null : Json
  | bool (b : Bool) : Json
  | num (q : ℚ) : Json
  | str (s : String) : Json
  | arr (xs : List Json) : Json
  | obj (kvs : List (String × Json)) : Json

/-- JavaScript truthiness of a JSON value: `null`, `false`, `0` and `""` are falsy. -/
def Json.truthy : Json → Bool
  | Json.null => false
  | Json.bool b => b
  | Json.num q => decide (q ≠ 0)
  | Json.str s => decide (s ≠ "")
  | Json.arr _ => true
  | Json.obj _ => true

/-- Truthiness of a value that may be `undefined`. -/
def truthy : Option Json → Bool
  | none => false
  | some j => j.truthy

/-- Property read `v.k` on a non-nullish value: `undefined` unless `v` is an
object that has the key. -/
def Json.prop (v : Json) (k : String) : Option Json :=
  match v with
  | Json.obj kvs => kvs.lookup k
  | _ => none

/-- Optional chaining `v?.k`: `undefined` when `v` is `null`. -/
def optChain (v : Json) (k : String) : Option Json :=
  match v with
  | Json.null => none
  | w => w.prop k

/-- The expression `v || d` where `d` is a JSON value. -/
def orDefault (v : Option Json) (d : Json) : Json :=
  match v with
  | some j => if j.truthy then j else d
  | none => d

/-- The literal `{ officers: [], keys: [] }`. -/
def emptyData : Json :=
  Json.obj [("officers", Json.arr []), ("keys", Json.arr [])]

/-! ## Configuration (lines 5-18) -/

/-- The environment `import.meta.env`: a name is unset or holds a string. -/
abbrev Env := String → Option String

/-- Truthiness of an environment value: unset and `""` are falsy. -/
def envTruthy : Option String → Bool
  | none => false
  | some s => decide (s ≠ "")

/-- The expression `a || b` on environment values. -/
def envOr (a b : Option String) : Option String :=
  if envTruthy a then a else b

/-- Lines 5-7: `VITE_SUPABASE_URL || NEXT_PUBLIC_SUPABASE_URL || SUPABASE_URL`. -/
def supabaseUrl (env : Env) : Option String :=
  envOr (envOr (env "VITE_SUPABASE_URL") (env "NEXT_PUBLIC_SUPABASE_URL")) (env "SUPABASE_URL")

/-- Lines 9-11: `VITE_SUPABASE_ANON_KEY || NEXT_PUBLIC_SUPABASE_PUBLISHABLE_KEY || SUPABASE_ANON_KEY`. -/
def supabaseKey (env : Env) : Option String :=
  envOr (envOr (env "VITE_SUPABASE_ANON_KEY") (env "NEXT_PUBLIC_SUPABASE_PUBLISHABLE_KEY"))
    (env "SUPABASE_ANON_KEY")

/-- Line 13: the condition `!supabaseUrl || !supabaseKey` of the missing-credentials report. -/
def credentialsMissing (env : Env) : Bool :=
  !envTruthy (supabaseUrl env) || !envTruthy (supabaseKey env)

/-- The three names tried for the connection URL, in order. -/
def urlNames : List String :=
  ["VITE_SUPABASE_URL", "NEXT_PUBLIC_SUPABASE_URL", "SUPABASE_URL"]

/-- The three names tried for the access key, in order. -/
def keyNames : List String :=
  ["VITE_SUPABASE_ANON_KEY", "NEXT_PUBLIC_SUPABASE_PUBLISHABLE_KEY", "SUPABASE_ANON_KEY"]

/-- The specification's wording: the value of the first name, in order, that
holds a value (is set and not empty); `none` when no name does. -/
def firstHolding (names : List String) (env : Env) : Option String :=
  (names.map env).findSome? (fun v => if envTruthy v then v else none)

/-- A resolved setting that is usable: `undefined` and `""` both count as missing. -/
def held (v : Option String) : Option String :=
  if envTruthy v then v else none

/-! ## The backend client -/

/-- The error object of a response (`PostgrestError`): truthy whenever present. -/
structure PgError where
  code : String
  message : String

/-- What an awaited client call resolves to: the fields `data` and `error`
(`error` is `null`, here `none`, or an error object). -/
structure Response where
  data : Json
  error : Option PgError

/-- A thrown value: an error object rethrown by `throw error`, or anything
else a rejected promise carries. -/
inductive Thrown where
  | pg (e : PgError) : Thrown
  | other (msg : String) : Thrown

/-- The result of running code that may throw. -/
inductive Outcome (α : Type) where
  | resolved (v : α) : Outcome α
  | rejected (e : Thrown) : Outcome α

/-- The queries the adapter sends to the client. -/
inductive Call where
  /-- Lines 30-34: `from('lssd_data').select('data').eq('id', 1).maybeSingle()`. -/
  | selectData : Call
  /-- Lines 52-56: `from('lssd_data').select('id').eq('id', 1).maybeSingle()`. -/
  | selectId : Call
  /-- Lines 60-66: `from('lssd_data').update({ data, updated_at }).eq('id', 1)`. -/
  | update (data : Json) (updated_at : String) : Call
  /-- Lines 71-77: `from('lssd_data').insert([{ id, data, updated_at }])`. -/
  | insert (id : ℚ) (data : Json) (updated_at : String) : Call
  /-- Lines 114-117: `from('lssd_data').select('id').limit(1)`. -/
  | selectIdLimit1 : Call
  /-- Line 123: `rpc(fn)`. -/
  | rpc (fn : String) : Call

/-- A backend: how the client answers each call in a backend state. -/
abbrev Backend (σ : Type) := Call → σ → Outcome Response × σ

/-- The backend state together with the calls issued so far. -/
structure World (σ : Type) where
  st : σ
  trace : List Call

/-- An asynchronous function body, run against a backend. -/
abbrev Prog (σ α : Type) := Backend σ → World σ → Outcome α × World σ

/-- The statement `return v`. -/
def Prog.ret {σ α : Type} (v : α) : Prog σ α :=
  fun _ w => (Outcome.resolved v, w)

/-- The statement `throw e`. -/
def Prog.throw {σ α : Type} (e : Thrown) : Prog σ α :=
  fun _ w => (Outcome.rejected e, w)

/-- Sequencing: a throw in the first part skips the rest. -/
def Prog.bind {σ α β : Type} (p : Prog σ α) (k : α → Prog σ β) : Prog σ β :=
  fun B w =>
    match p B w with
    | (Outcome.resolved v, w1) => k v B w1
    | (Outcome.rejected e, w1) => (Outcome.rejected e, w1)

/-- The statement `try p catch (error) h`. -/
def Prog.tryCatch {σ α : Type} (p : Prog σ α) (h : Thrown → Prog σ α) : Prog σ α :=
  fun B w =>
    match p B w with
    | (Outcome.resolved v, w1) => (Outcome.resolved v, w1)
    | (Outcome.rejected e, w1) => h e B w1

/-- The expression `await supabase.<call>`: the call is issued and recorded; a
rejected promise throws. -/
def await {σ : Type} (c : Call) : Prog σ Response :=
  fun B w =>
    match B c w.st with
    | (o, s1) => (o, World.mk s1 (w.trace ++ [c]))

/-! ## The adapter's operations -/

/-- Lines 28-46: `loadData`. -/
def loadData {σ : Type} : Prog σ Json :=
  Prog.tryCatch
    (Prog.bind (await Call.selectData) fun r =>
      if r.error.isSome then
        Prog.ret emptyData
      else
        Prog.ret (orDefault (optChain r.data "data") emptyData))
    (fun _ => Prog.ret emptyData)

/-- Lines 60-68 and 71-79: `const { error } = await <write>; if (error) throw error`. -/
def writeOrThrow {σ : Type} (c : Call) : Prog σ Unit :=
  Prog.bind (await c) fun r =>
    match r.error with
    | some e => Prog.throw (Thrown.pg e)
    | none => Prog.ret ()

/-- Lines 49-87: `saveData(content)`; `now` is `new Date().toISOString()`. -/
def saveData {σ : Type} (content : Json) (now : String) : Prog σ Bool :=
  Prog.tryCatch
    (Prog.bind (await Call.selectId) fun r =>
      let existing := r.data
      Prog.bind
        (if existing.truthy then
          writeOrThrow (Call.update content now)
        else
          writeOrThrow (Call.insert 1 content now))
        fun _ => Prog.ret true)
    (fun _ => Prog.ret false)

/-- Line 119: the condition `error && error.code === '42P01'`. -/
def tableAbsent (error : Option PgError) : Bool :=
  match error with
  | some e => decide (e.code = "42P01")
  | none => false

/-- Lines 111-137: `initDatabase`.  The block of lines 119-129 yields `some false`
when it returns early and `none` when control falls through to line 131. -/
def initDatabase {σ : Type} : Prog σ Bool :=
  Prog.tryCatch
    (Prog.bind (await Call.selectIdLimit1) fun r =>
      Prog.bind
        (if tableAbsent r.error then
          Prog.bind (await (Call.rpc "create_lssd_table")) fun r2 =>
            if r2.error.isSome then Prog.ret (some false) else Prog.ret none
        else
          Prog.ret none)
        fun early =>
          match early with
          | some v => Prog.ret v
          | none => Prog.ret true)
    (fun _ => Prog.ret false)

/-- Whether a call reported an error: it threw, or its response carries an
error object. -/
def Outcome.reportsError (o : Outcome Response) : Bool :=
  match o with
  | Outcome.rejected _ => true
  | Outcome.resolved r => r.error.isSome

/-! ## Real-time subscription (lines 90-108) -/

/-- The change event the real-time client hands to a handler; `new` and `old`
are the row images (`undefined` when the event carries none). -/
structure ChangePayload where
  eventType : String
  schema : String
  table : String
  new : Option Json
  old : Option Json

/-- The second argument of `.on('postgres_changes', ...)`. -/
structure ChangesFilter where
  event : String
  schema : String
  table : String
  filter : String

/-- A handler registered on a channel. -/
structure Binding (κ : Type) where
  type : String
  filter : ChangesFilter
  handler : ChangePayload → κ → κ

/-- A real-time channel: the subscription handle. -/
structure Channel (κ : Type) where
  topic : String
  bindings : List (Binding κ)
  subscribed : Bool

/-- The real-time part of the client (`channel`, `on`, `subscribe`); each call may throw. -/
structure RealtimeClient (κ : Type) where
  channel : String → Outcome (Channel κ)
  onEvent : Channel κ → String → ChangesFilter → (ChangePayload → κ → κ) → Outcome (Channel κ)
  subscribe : Channel κ → Outcome (Channel κ)

/-- Method chaining `a.f(...)` in synchronous code: a throw in `a` propagates. -/
def Outcome.andThen {α β : Type} (a : Outcome α) (f : α → Outcome β) : Outcome β :=
  match a with
  | Outcome.resolved v => f v
  | Outcome.rejected e => Outcome.rejected e

/-- Lines 100-105: the handler passed to `.on`.  The application's `callback`
acts on the application state `κ`. -/
def changeHandler {κ : Type} (callback : Json → κ → κ) (payload : ChangePayload) (k : κ) : κ :=
  match payload.new with
  | some n =>
    if n.truthy then
      match n.prop "data" with
      | some d => if d.truthy then callback d k else k
      | none => k
    else k
  | none => k

/-- Lines 90-108: `subscribeToChanges(callback)`. -/
def subscribeToChanges {κ : Type} (rt : RealtimeClient κ) (callback : Json → κ → κ) :
    Outcome (Channel κ) :=
  ((rt.channel "lssd_changes").andThen fun ch =>
    rt.onEvent ch "postgres_changes" (ChangesFilter.mk "*" "public" "lssd_data" "id=eq.1")
      (changeHandler callback)).andThen fun ch =>
    rt.subscribe ch

/-! ## A reference backend

The backend is not part of the repository.  For the properties that speak of
what is stored, the table `lssd_data` is a list of rows and the client answers
as PostgREST does; the table carries no uniqueness constraint, so that keeping
a single record is the adapter's own doing. -/

/-- A row of `lssd_data`. -/
structure Row where
  id : ℚ
  data : Json
  updated_at : String

/-- The table `lssd_data`. -/
abbrev Table := List Row

/-- The rows selected by `.eq('id', 1)`. -/
def rowsWithId1 (t : Table) : List Row :=
  t.filter fun r => decide (r.id = 1)

/-- The modifier `.maybeSingle()`: no row gives `null`, one row gives the row,
more rows give an error. -/
def maybeSingle (rows : List Json) : Response :=
  match rows with
  | [] => Response.mk Json.null none
  | [r] => Response.mk r none
  | _ => Response.mk Json.null (some (PgError.mk "PGRST116" "multiple rows returned"))

/-- How the table answers a call, and the table afterwards. -/
def Table.answer (c : Call) (t : Table) : Response × Table :=
  match c with
  | Call.selectData =>
    (maybeSingle ((rowsWithId1 t).map fun r => Json.obj [("data", r.data)]), t)
  | Call.selectId =>
    (maybeSingle ((rowsWithId1 t).map fun r => Json.obj [("id", Json.num r.id)]), t)
  | Call.update d u =>
    (Response.mk Json.null none,
      t.map fun r => if r.id = 1 then Row.mk r.id d u else r)
  | Call.insert i d u =>
    (Response.mk Json.null none, t ++ [Row.mk i d u])
  | Call.selectIdLimit1 =>
    (Response.mk (Json.arr ((t.take 1).map fun r => Json.obj [("id", Json.num r.id)])) none, t)
  | Call.rpc _ =>
    (Response.mk Json.null none, t)

/-- The backend in which no call fails and nobody else writes. -/
def storeBackend : Backend Table :=
  fun c t => (Outcome.resolved (Table.answer c t).1, (Table.answer c t).2)

/-- Whether a record with id 1 exists in the table. -/
def hasRecord (t : Table) : Bool :=
  !(rowsWithId1 t).isEmpty

/-- The table states in which the queries by id do not fail: at most one
record at id 1 (other rows are unconstrained). -/
def atMostOne (t : Table) : Prop :=
  (rowsWithId1 t).length ≤ 1

/-- The run after `saveData(content)` on the failure-free backend. -/
def afterSave (content : Json) (now : String) (w : World Table) : World Table :=
  (saveData content now storeBackend w).2

/-- What happens to one call of a scripted run. -/
inductive Step where
  /-- The call is answered by the table. -/
  | ok : Step
  /-- The call resolves with this error in the response's `error` field. -/
  | fail (e : PgError) : Step
  /-- The call throws. -/
  | reject (e : Thrown) : Step

/-- A table together with the fate of the coming calls; past the end of the
script every call is answered by the table. -/
structure Scripted where
  table : Table
  script : List Step

/-- The table backend with failures injected by the script. -/
def scriptedBackend : Backend Scripted :=
  fun c s =>
    match s.script with
    | [] => (Outcome.resolved (Table.answer c s.table).1, Scripted.mk (Table.answer c s.table).2 [])
    | Step.ok :: rest =>
      (Outcome.resolved (Table.answer c s.table).1, Scripted.mk (Table.answer c s.table).2 rest)
    | Step.fail e :: rest => (Outcome.resolved (Response.mk Json.null (some e)), Scripted.mk s.table rest)
    | Step.reject e :: rest => (Outcome.rejected e, Scripted.mk s.table rest)

/-- A fresh run: no call issued yet. -/
def World.start {σ : Type} (s : σ) : World σ :=
  World.mk s []

/-- Whether a call writes to the table. -/
def Call.isWrite : Call → Bool
  | Call.update _ _ => true
  | Call.insert _ _ _ => true
  | _ => false

/-- The real-time client in which no call throws. -/
def idealRealtime (κ : Type) : RealtimeClient κ where
  channel := fun topic => Outcome.resolved (Channel.mk topic [] false)
  onEvent := fun ch type filter handler =>
    Outcome.resolved (Channel.mk ch.topic (ch.bindings ++ [Binding.mk type filter handler]) ch.subscribed)
  subscribe := fun ch => Outcome.resolved (Channel.mk ch.topic ch.bindings true)

/-- A real-time client whose `channel` call throws. -/
def brokenRealtime (κ : Type) : RealtimeClient κ where
  channel := fun _ => Outcome.rejected (Thrown.other "channel failed")
  onEvent := (idealRealtime κ).onEvent
  subscribe := (idealRealtime κ).subscribe

/-- The identity of the row an event is about: `new.id`, or `old.id` when the
event carries no new row. -/
def ChangePayload.rowId (ev : ChangePayload) : Option Json :=
  match ev.new.bind fun n => n.prop "id" with
  | some i => some i
  | none => ev.old.bind fun o => o.prop "id"

/-- Whether the event is about the record with id 1. -/
def ChangePayload.aboutId1 (ev : ChangePayload) : Bool :=
  match ev.rowId with
  | some (Json.num q) => decide (q = 1)
  | _ => false

/-- The real-time service's routing, for the row filter the adapter uses: a
`postgres_changes` binding receives an event when the schema and table agree,
the event type is covered, and the row filter `id=eq.1` holds of the row. -/
def Binding.receives {κ : Type} (b : Binding κ) (ev : ChangePayload) : Bool :=
  decide (b.type = "postgres_changes") &&
  (decide (b.filter.event = "*") || decide (b.filter.event = ev.eventType)) &&
  decide (b.filter.schema = ev.schema) &&
  decide (b.filter.table = ev.table) &&
  (decide (b.filter.filter = "id=eq.1") && ev.aboutId1)

/-- Delivery of one event to a subscribed channel: every binding that receives
it runs its handler. -/
def Channel.deliver {κ : Type} (ch : Channel κ) (ev : ChangePayload) (k : κ) : κ :=
  if ch.subscribed then
    ch.bindings.foldl (fun acc b => if b.receives ev then b.handler ev acc else acc) k
  else k

/-- The data an event carries for the callback: the `data` field of its new
row, provided the new row and the field are both truthy. -/
def ChangePayload.carried (ev : ChangePayload) : Option Json :=
  ((ev.new.filter Json.truthy).bind fun n => n.prop "data").filter Json.truthy

/-- A callback that records its arguments, in order of invocation. -/
def recordCall (d : Json) (log : List Json) : List Json :=
  log ++ [d]

end Supabase

namespace Supabase

/-! ## Configuration resolution -/

theorem held_some_of_truthy {v : Option String} (h : envTruthy v = true) :
    ∃ x, v = some x := by
  cases v with
  | none => simp [envTruthy] at h
  | some x => exact ⟨x, rfl⟩

theorem held_envOr3 (a b c : Option String) :
    held (envOr (envOr a b) c) =
      [a, b, c].findSome? (fun v => if envTruthy v then v else none) := by
  cases ha : envTruthy a
  · cases hb : envTruthy b
    · cases hc : envTruthy c
      · simp [held, envOr, List.findSome?, ha, hb, hc]
      · obtain ⟨x, rfl⟩ := held_some_of_truthy hc
        simp [held, envOr, List.findSome?, ha, hb, hc]
    · obtain ⟨x, rfl⟩ := held_some_of_truthy hb
      simp [held, envOr, List.findSome?, ha, hb]
  · obtain ⟨x, rfl⟩ := held_some_of_truthy ha
    simp [held, envOr, List.findSome?, ha]

theorem envTruthy_envOr3 (a b c : Option String) :
    envTruthy (envOr (envOr a b) c) = false ↔
      envTruthy a = false ∧ envTruthy b = false ∧ envTruthy c = false := by
  cases ha : envTruthy a <;> cases hb : envTruthy b <;> cases hc : envTruthy c <;>
    simp [envOr, ha, hb, hc]

/-- C10. Configuration resolution: the connection URL (the access key) is the
value of the first of its three names, in order, that holds a value; the
resolved setting is missing exactly when all three names are unset or empty,
and the missing-credentials report of line 13 fires exactly when that is so
for the URL or for the key. -/
theorem config_resolution (env : Env) :
    held (supabaseUrl env) = firstHolding urlNames env ∧
    held (supabaseKey env) = firstHolding keyNames env ∧
    (envTruthy (supabaseUrl env) = false ↔ ∀ n ∈ urlNames, envTruthy (env n) = false) ∧
    (envTruthy (supabaseKey env) = false ↔ ∀ n ∈ keyNames, envTruthy (env n) = false) ∧
    (credentialsMissing env = true ↔
      (∀ n ∈ urlNames, envTruthy (env n) = false) ∨
      (∀ n ∈ keyNames, envTruthy (env n) = false)) := by
  have hu : envTruthy (supabaseUrl env) = false ↔ ∀ n ∈ urlNames, envTruthy (env n) = false := by
    simp [supabaseUrl, urlNames, envTruthy_envOr3]
  have hk : envTruthy (supabaseKey env) = false ↔ ∀ n ∈ keyNames, envTruthy (env n) = false := by
    simp [supabaseKey, keyNames, envTruthy_envOr3]
  refine ⟨?_, ?_, hu, hk, ?_⟩
  · simp only [supabaseUrl, firstHolding, urlNames, List.map, held_envOr3]
  · simp only [supabaseKey, firstHolding, keyNames, List.map, held_envOr3]
  · rw [← hu, ← hk]
    simp [credentialsMissing]

/-! ## Running programs -/

theorem await_eq {σ : Type} (c : Call) (B : Backend σ) (w : World σ) :
    await c B w = ((B c w.st).1, World.mk (B c w.st).2 (w.trace ++ [c])) := by
  cases h : B c w.st
  simp [await, h]

theorem await_of_eq {σ : Type} {c : Call} {B : Backend σ} {w : World σ}
    {o : Outcome Response} {s1 : σ} (h : B c w.st = (o, s1)) :
    await c B w = (o, World.mk s1 (w.trace ++ [c])) := by
  simp [await_eq, h]

/-! ## loadData -/

/-- C2. `loadData` returns exactly `{ officers: [], keys: [] }`, without
throwing, when the query finds no row with id 1, when the query returns an
error object, and when the backend call throws. -/
theorem loadData_default {σ : Type} (B : Backend σ) (w : World σ) :
    (∀ s1, B Call.selectData w.st = (Outcome.resolved (Response.mk Json.null none), s1) →
      (loadData B w).1 = Outcome.resolved emptyData) ∧
    (∀ d e s1, B Call.selectData w.st = (Outcome.resolved (Response.mk d (some e)), s1) →
      (loadData B w).1 = Outcome.resolved emptyData) ∧
    (∀ e s1, B Call.selectData w.st = (Outcome.rejected e, s1) →
      (loadData B w).1 = Outcome.resolved emptyData) := by
  refine ⟨?_, ?_, ?_⟩
  · intro s1 h
    simp [loadData, Prog.tryCatch, Prog.bind, Prog.ret, await_of_eq h, optChain, orDefault]
  · intro d e s1 h
    simp [loadData, Prog.tryCatch, Prog.bind, Prog.ret, await_of_eq h]
  · intro e s1 h
    simp [loadData, Prog.tryCatch, Prog.bind, Prog.ret, await_of_eq h]

/-- Witness for C2: an empty table, a missing table (error 42P01) and a
rejected request all load the default. -/
theorem loadData_default_witness :
    (loadData scriptedBackend (World.start (Scripted.mk [] []))).1
      = Outcome.resolved emptyData ∧
    (loadData scriptedBackend
      (World.start (Scripted.mk [] [Step.fail (PgError.mk "42P01" "relation does not exist")]))).1
      = Outcome.resolved emptyData ∧
    (loadData scriptedBackend
      (World.start (Scripted.mk [] [Step.reject (Thrown.other "fetch failed")]))).1
      = Outcome.resolved emptyData :=
  ⟨(loadData_default scriptedBackend _).1 _ rfl,
   (loadData_default scriptedBackend _).2.1 _ _ _ rfl,
   (loadData_default scriptedBackend _).2.2 _ _ rfl⟩

/-! ## initDatabase -/

/-- C5. `initDatabase` returns `true`, having issued the existence check only
(no provisioning call), whenever that check completes without error; whenever
the check reports error code 42P01 it issues the provisioning call
`rpc('create_lssd_table')`, and when that call reports an error too (in its
response or by throwing) `initDatabase` returns `false` without throwing,
having issued exactly these two calls. -/
theorem initDatabase_check {σ : Type} (B : Backend σ) (w : World σ) :
    (∀ d s1, B Call.selectIdLimit1 w.st = (Outcome.resolved (Response.mk d none), s1) →
      initDatabase B w
        = (Outcome.resolved true, World.mk s1 (w.trace ++ [Call.selectIdLimit1]))) ∧
    (∀ d e s1 o s2,
      B Call.selectIdLimit1 w.st = (Outcome.resolved (Response.mk d (some e)), s1) →
      e.code = "42P01" →
      B (Call.rpc "create_lssd_table") s1 = (o, s2) →
      o.reportsError = true →
      initDatabase B w
        = (Outcome.resolved false,
           World.mk s2 (w.trace ++ [Call.selectIdLimit1, Call.rpc "create_lssd_table"]))) := by
  refine ⟨?_, ?_⟩
  · intro d s1 h
    simp [initDatabase, Prog.tryCatch, Prog.bind, Prog.ret, await_of_eq h, tableAbsent]
  · intro d e s1 o s2 h hc h2 ho
    have h2' : B (Call.rpc "create_lssd_table")
        (World.mk s1 (w.trace ++ [Call.selectIdLimit1])).st = (o, s2) := h2
    cases o with
    | rejected x =>
      simp [initDatabase, Prog.tryCatch, Prog.bind, Prog.ret, await_of_eq h, tableAbsent, hc,
        await_of_eq h2']
    | resolved r =>
      have hr : r.error.isSome = true := ho
      simp [initDatabase, Prog.tryCatch, Prog.bind, Prog.ret, await_of_eq h, tableAbsent, hc,
        await_of_eq h2', hr]

/-- Witness for C5: an existing table; a missing table whose provisioning
function is missing as well; a missing table and a provisioning call that throws. -/
theorem initDatabase_check_witness :
    initDatabase scriptedBackend (World.start (Scripted.mk [] []))
      = (Outcome.resolved true, World.mk (Scripted.mk [] []) [Call.selectIdLimit1]) ∧
    initDatabase scriptedBackend (World.start (Scripted.mk []
      [Step.fail (PgError.mk "42P01" "relation does not exist"),
       Step.fail (PgError.mk "PGRST202" "function not found")]))
      = (Outcome.resolved false,
         World.mk (Scripted.mk [] [])
           ([] ++ [Call.selectIdLimit1, Call.rpc "create_lssd_table"])) ∧
    initDatabase scriptedBackend (World.start (Scripted.mk []
      [Step.fail (PgError.mk "42P01" "relation does not exist"),
       Step.reject (Thrown.other "fetch failed")]))
      = (Outcome.resolved false,
         World.mk (Scripted.mk [] [])
           ([] ++ [Call.selectIdLimit1, Call.rpc "create_lssd_table"])) :=
  ⟨(initDatabase_check scriptedBackend _).1 _ _ rfl,
   (initDatabase_check scriptedBackend _).2 _ _ _ _ _ rfl rfl rfl rfl,
   (initDatabase_check scriptedBackend _).2 _ _ _ _ _ rfl rfl rfl rfl⟩

/-- C6, at the failing input: the existence check resolves with an error whose
code is not 42P01 (an expired token); no provisioning call is made and
`initDatabase` returns `true`. -/
theorem initDatabase_other_error_true :
    initDatabase scriptedBackend
        (World.start (Scripted.mk [] [Step.fail (PgError.mk "PGRST301" "JWT expired")]))
      = (Outcome.resolved true, World.mk (Scripted.mk [] []) [Call.selectIdLimit1]) := by
  simp [initDatabase, Prog.tryCatch, Prog.bind, Prog.ret, await_eq, tableAbsent,
    scriptedBackend, World.start]

/-! ## saveData: errors -/

/-- C3, at the failing input: the table is empty, the existence check resolves
with an error in its `error` field, the insert succeeds; `saveData` goes on to
insert and returns `true`. -/
theorem saveData_check_error_true :
    saveData emptyData "2024-01-01T00:00:00.000Z" scriptedBackend
        (World.start (Scripted.mk [] [Step.fail (PgError.mk "PGRST301" "JWT expired")]))
      = (Outcome.resolved true,
         World.mk (Scripted.mk [Row.mk 1 emptyData "2024-01-01T00:00:00.000Z"] [])
           [Call.selectId, Call.insert 1 emptyData "2024-01-01T00:00:00.000Z"]) := by
  simp [saveData, writeOrThrow, Prog.tryCatch, Prog.bind, Prog.ret, await_eq,
    scriptedBackend, World.start, Json.truthy, Table.answer]

/-! ## Error propagation -/

theorem tryCatch_ret_resolved {σ α : Type} (p : Prog σ α) (v0 : α) (B : Backend σ)
    (w : World σ) :
    ∃ v, (Prog.tryCatch p (fun _ => Prog.ret v0) B w).1 = Outcome.resolved v := by
  cases h : p B w with
  | mk o w1 =>
    cases o with
    | resolved v => exact ⟨v, by simp [Prog.tryCatch, h]⟩
    | rejected e => exact ⟨v0, by simp [Prog.tryCatch, h, Prog.ret]⟩

/-- C7, counterexample: when the client's `channel` call throws,
`subscribeToChanges` throws too; it returns no handle. -/
theorem subscribeToChanges_throws :
    subscribeToChanges (brokenRealtime (List Json)) recordCall
      = Outcome.rejected (Thrown.other "channel failed") ∧
    ¬ ∃ ch, subscribeToChanges (brokenRealtime (List Json)) recordCall = Outcome.resolved ch := by
  constructor
  · rfl
  · rintro ⟨ch, h⟩
    simp [subscribeToChanges, brokenRealtime, Outcome.andThen] at h

/-- C7, amended. For every behaviour of the backend, `initDatabase`, `loadData`
and `saveData` complete with a plain value and never throw; `subscribeToChanges`
returns the subscription handle whenever the client's `channel`, `on` and
`subscribe` calls return. -/
theorem no_error_escapes {σ κ : Type} (B : Backend σ) (w : World σ) (content : Json)
    (now : String) (rt : RealtimeClient κ) (callback : Json → κ → κ) :
    (∃ v, (initDatabase B w).1 = Outcome.resolved v) ∧
    (∃ v, (loadData B w).1 = Outcome.resolved v) ∧
    (∃ v, (saveData content now B w).1 = Outcome.resolved v) ∧
    (∀ ch1 ch2 ch3, rt.channel "lssd_changes" = Outcome.resolved ch1 →
      rt.onEvent ch1 "postgres_changes" (ChangesFilter.mk "*" "public" "lssd_data" "id=eq.1")
        (changeHandler callback) = Outcome.resolved ch2 →
      rt.subscribe ch2 = Outcome.resolved ch3 →
      subscribeToChanges rt callback = Outcome.resolved ch3) := by
  refine ⟨tryCatch_ret_resolved _ _ B w, tryCatch_ret_resolved _ _ B w,
    tryCatch_ret_resolved _ _ B w, ?_⟩
  intro ch1 ch2 ch3 h1 h2 h3
  simp [subscribeToChanges, Outcome.andThen, h1, h2, h3]

/-- Witness for C7: a backend whose every call throws, and a real-time client
whose calls all return. -/
theorem no_error_escapes_witness :
    (∃ v, (initDatabase scriptedBackend (World.start (Scripted.mk []
      [Step.reject (Thrown.other "fetch failed")]))).1 = Outcome.resolved v) ∧
    subscribeToChanges (idealRealtime (List Json)) recordCall
      = Outcome.resolved (Channel.mk "lssd_changes"
          [Binding.mk "postgres_changes" (ChangesFilter.mk "*" "public" "lssd_data" "id=eq.1")
            (changeHandler recordCall)] true) :=
  ⟨(no_error_escapes scriptedBackend _ Json.null "" (idealRealtime (List Json)) recordCall).1,
   (no_error_escapes scriptedBackend (World.start (Scripted.mk [] [])) Json.null ""
      (idealRealtime (List Json)) recordCall).2.2.2 _ _ _ rfl rfl rfl⟩

/-! ## subscribeToChanges -/

theorem changeHandler_eq {κ : Type} (callback : Json → κ → κ) (ev : ChangePayload) (k : κ) :
    changeHandler callback ev k =
      match ev.carried with
      | some d => callback d k
      | none => k := by
  unfold changeHandler ChangePayload.carried
  cases ev.new with
  | none => simp
  | some n =>
    cases hn : n.truthy with
    | false => simp [Option.filter, hn]
    | true =>
      cases hp : n.prop "data" with
      | none => simp [Option.filter, hn, hp]
      | some d =>
        cases hd : d.truthy <;> simp [Option.filter, hn, hp, hd]

/-- C9. The handler registered by `subscribeToChanges(callback)` invokes the
callback exactly once, with the new row's `data` field, for an event whose new
row and `data` field are both present and truthy, and not at all for any other
event; the handler is registered for `postgres_changes` on table `lssd_data`
with event `*` and filter `id=eq.1`, so that an event about another identity
(or another table) does not reach it. -/
theorem subscription_callback {κ : Type} (callback : Json → κ → κ) (ev : ChangePayload)
    (k : κ) :
    (changeHandler callback ev k =
      match ev.carried with
      | some d => callback d k
      | none => k) ∧
    changeHandler recordCall ev [] = ev.carried.toList ∧
    subscribeToChanges (idealRealtime κ) callback
      = Outcome.resolved (Channel.mk "lssd_changes"
          [Binding.mk "postgres_changes" (ChangesFilter.mk "*" "public" "lssd_data" "id=eq.1")
            (changeHandler callback)] true) ∧
    (Channel.mk "lssd_changes"
        [Binding.mk "postgres_changes" (ChangesFilter.mk "*" "public" "lssd_data" "id=eq.1")
          (changeHandler callback)] true).deliver ev k
      = (if ev.schema = "public" ∧ ev.table = "lssd_data" ∧ ev.aboutId1 = true then
          changeHandler callback ev k
        else k) := by
  refine ⟨changeHandler_eq callback ev k, ?_, rfl, ?_⟩
  · rw [changeHandler_eq]
    cases ev.carried <;> simp [recordCall]
  · have e1 : ("public" = ev.schema) = (ev.schema = "public") := propext eq_comm
    have e2 : ("lssd_data" = ev.table) = (ev.table = "lssd_data") := propext eq_comm
    simp only [Channel.deliver, Binding.receives, List.foldl, e1, e2]
    by_cases h1 : ev.schema = "public" <;> by_cases h2 : ev.table = "lssd_data" <;>
      cases h3 : ev.aboutId1 <;> simp [h1, h2, h3]

/-! ## saveData and loadData on the failure-free backend -/

theorem rowsWithId1_cases (t : Table) (h : atMostOne t) :
    rowsWithId1 t = [] ∨ ∃ r, rowsWithId1 t = [r] ∧ r.id = 1 := by
  unfold atMostOne at h
  match hr : rowsWithId1 t with
  | [] => exact Or.inl rfl
  | [r] =>
    refine Or.inr ⟨r, rfl, ?_⟩
    have hm : r ∈ rowsWithId1 t := by simp [hr]
    simpa [rowsWithId1] using (List.mem_filter.mp hm).2
  | _ :: _ :: _ => simp [hr] at h

theorem rowsWithId1_insert (t : Table) (d : Json) (u : String) :
    rowsWithId1 (t ++ [Row.mk 1 d u]) = rowsWithId1 t ++ [Row.mk 1 d u] := by
  simp [rowsWithId1, List.filter_append, List.filter]

theorem rowsWithId1_update (t : Table) (d : Json) (u : String) :
    rowsWithId1 (t.map fun r => if r.id = 1 then Row.mk r.id d u else r)
      = (rowsWithId1 t).map fun r => Row.mk r.id d u := by
  induction t with
  | nil => rfl
  | cons r t ih =>
    unfold rowsWithId1 at ih ⊢
    by_cases h : r.id = 1
    · simp [List.filter, h, ih]
    · simp [List.filter, h, ih]

theorem saveData_store_absent (content : Json) (now : String) (w : World Table)
    (h : rowsWithId1 w.st = []) :
    saveData content now storeBackend w
      = (Outcome.resolved true,
         World.mk (w.st ++ [Row.mk 1 content now])
           (w.trace ++ [Call.selectId, Call.insert 1 content now])) := by
  simp [saveData, writeOrThrow, Prog.tryCatch, Prog.bind, Prog.ret, await_eq, storeBackend,
    Table.answer, h, maybeSingle, Json.truthy]

theorem saveData_store_present (content : Json) (now : String) (w : World Table) (r : Row)
    (h : rowsWithId1 w.st = [r]) :
    saveData content now storeBackend w
      = (Outcome.resolved true,
         World.mk (w.st.map fun r => if r.id = 1 then Row.mk r.id content now else r)
           (w.trace ++ [Call.selectId, Call.update content now])) := by
  simp [saveData, writeOrThrow, Prog.tryCatch, Prog.bind, Prog.ret, await_eq, storeBackend,
    Table.answer, h, maybeSingle, Json.truthy]

theorem loadData_store_single (w : World Table) (r : Row) (h : rowsWithId1 w.st = [r]) :
    (loadData storeBackend w).1
      = Outcome.resolved (if r.data.truthy then r.data else emptyData) := by
  simp [loadData, Prog.tryCatch, Prog.bind, Prog.ret, await_eq, storeBackend,
    Table.answer, h, maybeSingle, optChain, Json.prop, orDefault, List.lookup]

theorem saveData_store (content : Json) (now : String) (w : World Table)
    (h : atMostOne w.st) :
    (saveData content now storeBackend w).1 = Outcome.resolved true ∧
    (afterSave content now w).trace
      = w.trace ++ [Call.selectId,
          if hasRecord w.st then Call.update content now else Call.insert 1 content now] ∧
    rowsWithId1 (afterSave content now w).st = [Row.mk 1 content now] ∧
    (afterSave content now w).st.length = w.st.length + (if hasRecord w.st then 0 else 1) := by
  rcases rowsWithId1_cases w.st h with h0 | ⟨r, h1, hid⟩
  · simp [afterSave, saveData_store_absent content now w h0, hasRecord, h0, rowsWithId1_insert]
  · simp [afterSave, saveData_store_present content now w r h1, hasRecord, h1,
      rowsWithId1_update, hid]

/-- C1, counterexample: on an empty table `saveData(false)` returns `true`,
and the following `loadData()` returns `{ officers: [], keys: [] }`, not `false`. -/
theorem round_trip_fails_on_false :
    (saveData (Json.bool false) "2024-01-01T00:00:00.000Z" storeBackend (World.start [])).1
      = Outcome.resolved true ∧
    (loadData storeBackend
        (afterSave (Json.bool false) "2024-01-01T00:00:00.000Z" (World.start []))).1
      = Outcome.resolved emptyData ∧
    (loadData storeBackend
        (afterSave (Json.bool false) "2024-01-01T00:00:00.000Z" (World.start []))).1
      ≠ Outcome.resolved (Json.bool false) := by
  have hs := saveData_store (Json.bool false) "2024-01-01T00:00:00.000Z" (World.start [])
    (by simp [atMostOne, rowsWithId1, World.start])
  have hl := loadData_store_single _ _ hs.2.2.1
  refine ⟨hs.1, by simpa [Json.truthy] using hl, ?_⟩
  rw [hl]
  simp [Json.truthy, emptyData]

/-- C1, amended. Round trip: for every payload `X` and every table with at most
one record at id 1, on the backend in which no call fails and nobody else
writes, `saveData(X)` returns `true` and a following `loadData()` returns `X`
when `X` is truthy, and `{ officers: [], keys: [] }` when `X` is falsy
(`null`, `false`, `0`, `""`). -/
theorem save_then_load (X : Json) (now : String) (t : Table) (h : atMostOne t) :
    (saveData X now storeBackend (World.start t)).1 = Outcome.resolved true ∧
    (loadData storeBackend (afterSave X now (World.start t))).1
      = Outcome.resolved (if X.truthy then X else emptyData) := by
  have hs := saveData_store X now (World.start t) h
  exact ⟨hs.1, loadData_store_single _ _ hs.2.2.1⟩

/-- Witness for C1: saving an application payload over an existing record. -/
theorem save_then_load_witness :
    atMostOne [Row.mk 1 emptyData "2023-12-31T00:00:00.000Z"] ∧
    (saveData (Json.obj [("officers", Json.arr [Json.str "Smith"]), ("keys", Json.arr [])])
        "2024-01-01T00:00:00.000Z" storeBackend
        (World.start [Row.mk 1 emptyData "2023-12-31T00:00:00.000Z"])).1
      = Outcome.resolved true ∧
    (loadData storeBackend
        (afterSave (Json.obj [("officers", Json.arr [Json.str "Smith"]), ("keys", Json.arr [])])
          "2024-01-01T00:00:00.000Z"
          (World.start [Row.mk 1 emptyData "2023-12-31T00:00:00.000Z"]))).1
      = Outcome.resolved
          (Json.obj [("officers", Json.arr [Json.str "Smith"]), ("keys", Json.arr [])]) :=
  ⟨by simp [atMostOne, rowsWithId1],
   save_then_load (Json.obj [("officers", Json.arr [Json.str "Smith"]), ("keys", Json.arr [])])
     "2024-01-01T00:00:00.000Z" [Row.mk 1 emptyData "2023-12-31T00:00:00.000Z"]
     (by simp [atMostOne, rowsWithId1])⟩

/-- C4, counterexample: after `saveData(A)` and `saveData(null)` on an empty
table, `loadData()` returns `{ officers: [], keys: [] }`, not `null`. -/
theorem last_write_null_not_loaded :
    (loadData storeBackend
        (afterSave Json.null "2024-01-02T00:00:00.000Z"
          (afterSave emptyData "2024-01-01T00:00:00.000Z" (World.start [])))).1
      = Outcome.resolved emptyData ∧
    (loadData storeBackend
        (afterSave Json.null "2024-01-02T00:00:00.000Z"
          (afterSave emptyData "2024-01-01T00:00:00.000Z" (World.start [])))).1
      ≠ Outcome.resolved Json.null := by
  have h1 := saveData_store emptyData "2024-01-01T00:00:00.000Z" (World.start [])
    (by simp [atMostOne, rowsWithId1, World.start])
  have h2 := saveData_store Json.null "2024-01-02T00:00:00.000Z"
    (afterSave emptyData "2024-01-01T00:00:00.000Z" (World.start []))
    (by simp [atMostOne, h1.2.2.1])
  have hl := loadData_store_single _ _ h2.2.2.1
  refine ⟨by simpa [Json.truthy] using hl, ?_⟩
  rw [hl]
  simp [Json.truthy, emptyData]

/-- C4, amended. Last write wins: for all payloads `A`, `B` and every table
with at most one record at id 1, on the backend in which no call fails and
nobody else writes, `saveData(A)` then `saveData(B)` both return `true`; the
first save inserts the record if absent and updates it otherwise, the second
updates it, so the table gains no further row and its one record at id 1
holds `B`; a following `loadData()` returns `B` when `B` is truthy and
`{ officers: [], keys: [] }` when `B` is falsy. -/
theorem last_write_wins (A B : Json) (nowA nowB : String) (t : Table) (h : atMostOne t) :
    (saveData A nowA storeBackend (World.start t)).1 = Outcome.resolved true ∧
    (saveData B nowB storeBackend (afterSave A nowA (World.start t))).1
      = Outcome.resolved true ∧
    (afterSave B nowB (afterSave A nowA (World.start t))).trace
      = [Call.selectId, if hasRecord t then Call.update A nowA else Call.insert 1 A nowA,
         Call.selectId, Call.update B nowB] ∧
    rowsWithId1 (afterSave B nowB (afterSave A nowA (World.start t))).st = [Row.mk 1 B nowB] ∧
    (afterSave B nowB (afterSave A nowA (World.start t))).st.length
      = t.length + (if hasRecord t then 0 else 1) ∧
    (loadData storeBackend (afterSave B nowB (afterSave A nowA (World.start t)))).1
      = Outcome.resolved (if B.truthy then B else emptyData) := by
  have h1 := saveData_store A nowA (World.start t) h
  have hone : atMostOne (afterSave A nowA (World.start t)).st := by
    simp [atMostOne, h1.2.2.1]
  have hrec : hasRecord (afterSave A nowA (World.start t)).st = true := by
    simp [hasRecord, h1.2.2.1]
  have h2 := saveData_store B nowB (afterSave A nowA (World.start t)) hone
  refine ⟨h1.1, h2.1, ?_, h2.2.2.1, ?_, loadData_store_single _ _ h2.2.2.1⟩
  · rw [h2.2.1, h1.2.1, hrec]
    simp [World.start]
  · rw [h2.2.2.2, h1.2.2.2, hrec]
    simp [World.start]

/-- Witness for C4: two saves on an empty table. -/
theorem last_write_wins_witness :
    atMostOne [] ∧
    (loadData storeBackend
        (afterSave (Json.obj [("officers", Json.arr [Json.str "Smith"]), ("keys", Json.arr [])])
          "2024-01-02T00:00:00.000Z"
          (afterSave emptyData "2024-01-01T00:00:00.000Z" (World.start [])))).1
      = Outcome.resolved
          (Json.obj [("officers", Json.arr [Json.str "Smith"]), ("keys", Json.arr [])]) :=
  ⟨by simp [atMostOne, rowsWithId1],
   (last_write_wins emptyData
      (Json.obj [("officers", Json.arr [Json.str "Smith"]), ("keys", Json.arr [])])
      "2024-01-01T00:00:00.000Z" "2024-01-02T00:00:00.000Z" []
      (by simp [atMostOne, rowsWithId1])).2.2.2.2.2⟩

/-! ## saveData: the single record -/

/-- C8, counterexample. A record exists at id 1.  When the existence check
throws, `saveData` issues no write at all; when the existence check resolves
with an error, `saveData` issues an insert although the record exists, and the
table then holds two rows with id 1. -/
theorem saveData_not_exactly_one_write :
    ((saveData emptyData "2024-01-01T00:00:00.000Z" scriptedBackend
        (World.start (Scripted.mk [Row.mk 1 Json.null "2023-12-31T00:00:00.000Z"]
          [Step.reject (Thrown.other "fetch failed")]))).2.trace.filter Call.isWrite = []) ∧
    (saveData emptyData "2024-01-01T00:00:00.000Z" scriptedBackend
        (World.start (Scripted.mk [Row.mk 1 Json.null "2023-12-31T00:00:00.000Z"]
          [Step.fail (PgError.mk "PGRST301" "JWT expired")])))
      = (Outcome.resolved true,
         World.mk
          (Scripted.mk [Row.mk 1 Json.null "2023-12-31T00:00:00.000Z",
            Row.mk 1 emptyData "2024-01-01T00:00:00.000Z"] [])
          [Call.selectId, Call.insert 1 emptyData "2024-01-01T00:00:00.000Z"]) ∧
    (rowsWithId1 [Row.mk 1 Json.null "2023-12-31T00:00:00.000Z",
        Row.mk 1 emptyData "2024-01-01T00:00:00.000Z"]).length = 2 := by
  refine ⟨?_, ?_, ?_⟩
  · simp [saveData, Prog.tryCatch, Prog.bind, Prog.ret, await_eq, scriptedBackend,
      World.start, Call.isWrite]
  · simp [saveData, writeOrThrow, Prog.tryCatch, Prog.bind, Prog.ret, await_eq,
      scriptedBackend, World.start, Json.truthy, Table.answer]
  · simp [rowsWithId1]

theorem saveData_trace_of_check {σ : Type} (content : Json) (now : String) (B : Backend σ)
    (w : World σ) (d : Json) (s1 : σ)
    (h : B Call.selectId w.st = (Outcome.resolved (Response.mk d none), s1)) :
    (saveData content now B w).2.trace
      = w.trace ++ [Call.selectId,
          if d.truthy then Call.update content now else Call.insert 1 content now] := by
  cases hd : d.truthy with
  | true =>
    cases h2 : B (Call.update content now) s1 with
    | mk o s2 =>
      have h2' : B (Call.update content now)
          (World.mk s1 (w.trace ++ [Call.selectId])).st = (o, s2) := h2
      cases o with
      | rejected e =>
        simp [saveData, writeOrThrow, Prog.tryCatch, Prog.bind, Prog.ret, await_of_eq h, hd,
          await_of_eq h2']
      | resolved r =>
        cases he : r.error <;>
          simp [saveData, writeOrThrow, Prog.tryCatch, Prog.bind, Prog.ret, Prog.throw,
            await_of_eq h, hd, await_of_eq h2', he]
  | false =>
    cases h2 : B (Call.insert 1 content now) s1 with
    | mk o s2 =>
      have h2' : B (Call.insert 1 content now)
          (World.mk s1 (w.trace ++ [Call.selectId])).st = (o, s2) := h2
      cases o with
      | rejected e =>
        simp [saveData, writeOrThrow, Prog.tryCatch, Prog.bind, Prog.ret, await_of_eq h, hd,
          await_of_eq h2']
      | resolved r =>
        cases he : r.error <;>
          simp [saveData, writeOrThrow, Prog.tryCatch, Prog.bind, Prog.ret, Prog.throw,
            await_of_eq h, hd, await_of_eq h2', he]

/-- C8, amended. Single record: for every payload,
(1) on the failure-free backend and every table with at most one record at
id 1, `saveData` issues exactly one write after the existence check, an update
restricted to id 1 that sets `data` to the payload and `updated_at` to the
current time when the record exists and an insert with id 1 when it does not,
and the table afterwards holds exactly one record at id 1, carrying the payload;
(2) on every backend, when the existence check completes without error exactly
one write is issued, whatever its fate: the update when the check found a row,
the insert with id 1 when it found none;
(3) on every backend, when the existence check throws no write is issued and
`saveData` returns `false`. -/
theorem saveData_single_record (content : Json) (now : String) :
    (∀ t : Table, atMostOne t →
      (afterSave content now (World.start t)).trace
        = [Call.selectId,
            if hasRecord t then Call.update content now else Call.insert 1 content now] ∧
      rowsWithId1 (afterSave content now (World.start t)).st = [Row.mk 1 content now] ∧
      (afterSave content now (World.start t)).st.length
        = t.length + (if hasRecord t then 0 else 1)) ∧
    (∀ (σ : Type) (B : Backend σ) (w : World σ) (d : Json) (s1 : σ),
      B Call.selectId w.st = (Outcome.resolved (Response.mk d none), s1) →
      (saveData content now B w).2.trace
        = w.trace ++ [Call.selectId,
            if d.truthy then Call.update content now else Call.insert 1 content now]) ∧
    (∀ (σ : Type) (B : Backend σ) (w : World σ) (e : Thrown) (s1 : σ),
      B Call.selectId w.st = (Outcome.rejected e, s1) →
      saveData content now B w
        = (Outcome.resolved false, World.mk s1 (w.trace ++ [Call.selectId]))) := by
  refine ⟨?_, ?_, ?_⟩
  · intro t h
    have hs := saveData_store content now (World.start t) h
    refine ⟨?_, hs.2.2.1, hs.2.2.2⟩
    rw [hs.2.1]
    simp [World.start]
  · intro σ B w d s1 h
    exact saveData_trace_of_check content now B w d s1 h
  · intro σ B w e s1 h
    simp [saveData, Prog.tryCatch, Prog.bind, Prog.ret, await_of_eq h]

/-- Witness for C8: a save over an existing record updates it in place; a save
whose existence check throws writes nothing. -/
theorem saveData_single_record_witness :
    atMostOne [Row.mk 1 Json.null "2023-12-31T00:00:00.000Z"] ∧
    rowsWithId1 (afterSave emptyData "2024-01-01T00:00:00.000Z"
        (World.start [Row.mk 1 Json.null "2023-12-31T00:00:00.000Z"])).st
      = [Row.mk 1 emptyData "2024-01-01T00:00:00.000Z"] ∧
    saveData emptyData "2024-01-01T00:00:00.000Z" scriptedBackend
        (World.start (Scripted.mk [] [Step.reject (Thrown.other "fetch failed")]))
      = (Outcome.resolved false, World.mk (Scripted.mk [] []) ([] ++ [Call.selectId])) :=
  ⟨by simp [atMostOne, rowsWithId1],
   ((saveData_single_record emptyData "2024-01-01T00:00:00.000Z").1
      [Row.mk 1 Json.null "2023-12-31T00:00:00.000Z"] (by simp [atMostOne, rowsWithId1])).2.1,
   (saveData_single_record emptyData "2024-01-01T00:00:00.000Z").2.2 Scripted scriptedBackend
      (World.start (Scripted.mk [] [Step.reject (Thrown.other "fetch failed")]))
      (Thrown.other "fetch failed") (Scripted.mk [] []) rfl⟩

end Supabase
